import Mathlib

/-!
Verification of the microgrid digital-twin simulation engine
(`backend/simulation.py`) against its natural-language specification.

The Python module is shallowly embedded below:

* floats are modelled as exact rationals (`ℚ`);
* `round(x, n)` (Python's rounding to `n` decimal places) is modelled by
  `roundTo n`, rounding `x * 10 ^ n` to the nearest integer (`pyRound`,
  half rounded up; Python rounds ties to even over binary floats, a
  difference that is immaterial to every statement proved here — no claim
  depends on the direction in which an exact tie is broken);
* Python float division is fallible (`ZeroDivisionError`), so division in
  the dispatch arithmetic is modelled by `pydiv : ℚ → ℚ → Option ℚ` and
  the smart dispatch pass returns an `Option`;
* `numpy`'s globally seeded generator is modelled by an explicit state
  (`RngState`): `np.random.seed(n)` replaces the ambient state by `⟨n, 0⟩`
  and `np.random.random(24)` reads 24 draws from an abstract stream
  `rand : ℕ → ℕ → ℚ` (seed and draw index to value). The transcendental
  irradiance curve `exp (-((h - 12) / 3) ^ 2 / 2)` is kept abstract as a
  function parameter `g : ℕ → ℚ`; no claim depends on its actual values.
-/

namespace Microgrid

/-- Nearest integer, models Python's `round` applied to an exact value:
`pyRound x = ⌊x + 1/2⌋`. -/
def pyRound (x : ℚ) : ℤ := ⌊x + 1 / 2⌋

/-- Models Python's `round(x, n)`: round to `n` decimal places. -/
def roundTo (n : ℕ) (x : ℚ) : ℚ := (pyRound (x * 10 ^ n) : ℚ) / 10 ^ n

lemma pyRound_eq_round (x : ℚ) : pyRound x = round x := by
  rw [round_eq]; rfl

lemma roundTo_eq_of (n : ℕ) (x : ℚ) (z : ℤ) (h1 : (z : ℚ) ≤ x * 10 ^ n + 1 / 2)
    (h2 : x * 10 ^ n + 1 / 2 < z + 1) : roundTo n x = (z : ℚ) / 10 ^ n := by
  unfold roundTo pyRound
  rw [Int.floor_eq_iff.mpr ⟨h1, h2⟩]

lemma roundTo_zero (n : ℕ) : roundTo n 0 = 0 := by
  have h := roundTo_eq_of n 0 0 (by norm_num) (by norm_num)
  simpa using h

lemma roundTo_mono {x y : ℚ} (n : ℕ) (h : x ≤ y) : roundTo n x ≤ roundTo n y := by
  have h10 : (0 : ℚ) < 10 ^ n := by positivity
  have hz : pyRound (x * 10 ^ n) ≤ pyRound (y * 10 ^ n) := by
    unfold pyRound
    exact Int.floor_mono (by nlinarith)
  unfold roundTo
  have hz' : (pyRound (x * 10 ^ n) : ℚ) ≤ (pyRound (y * 10 ^ n) : ℚ) := by exact_mod_cast hz
  gcongr

lemma abs_roundTo_sub (n : ℕ) (x : ℚ) : |roundTo n x - x| ≤ 1 / (2 * 10 ^ n) := by
  have h10 : (0 : ℚ) < 10 ^ n := by positivity
  have h1 : |(pyRound (x * 10 ^ n) : ℚ) - x * 10 ^ n| ≤ 1 / 2 := by
    rw [pyRound_eq_round, abs_sub_comm]
    exact abs_sub_round _
  have h2 : roundTo n x - x = ((pyRound (x * 10 ^ n) : ℚ) - x * 10 ^ n) / 10 ^ n := by
    unfold roundTo
    field_simp
    ring
  rw [h2, abs_div, abs_of_pos h10, show (1 : ℚ) / (2 * 10 ^ n) = (1 / 2) / 10 ^ n by ring]
  gcongr

/-- Mirrors the `SimulationConfig` dataclass (defaults included). -/
structure Config where
  battery_capacity_kwh : ℚ := 10
  battery_efficiency : ℚ := 0.95
  min_soc : ℚ := 0.20
  max_soc : ℚ := 1
  initial_soc : ℚ := 0.50
  solar_capacity_kw : ℚ := 5
  weather_mode : String := "sunny"
  off_peak_price : ℚ := 4
  standard_price : ℚ := 6.50
  peak_price : ℚ := 8.50
  peak_hours : ℕ × ℕ := (18, 22)

/-- One hourly record as appended to `results` by either strategy. -/
structure HourRecord where
  hour : ℕ
  solar_generation : ℚ
  load_demand : ℚ
  solar_used : ℚ
  solar_excess : ℚ
  grid_usage : ℚ
  battery_charge : ℚ
  battery_discharge : ℚ
  battery_soc : ℚ
  grid_price : ℚ
  hourly_cost : ℚ
  is_peak_hour : Bool

/-- The `summary` dictionary of `run_comparison`. -/
structure Summary where
  baseline_total_cost : ℚ
  smart_total_cost : ℚ
  cost_saved : ℚ
  cost_saved_percent : ℚ
  baseline_grid_usage : ℚ
  smart_grid_usage : ℚ
  grid_reduced : ℚ
  grid_reduced_percent : ℚ
  battery_capacity_kwh : ℚ
  peak_price : ℚ
  off_peak_price : ℚ

/-- The full return value of `run_comparison`. -/
structure ComparisonResult where
  baseline_data : List HourRecord
  smart_data : List HourRecord
  summary : Summary

/-- State of numpy's global generator: the last seed set and the position
in the seeded stream. -/
structure RngState where
  seed : ℕ
  pos : ℕ

/-- `np.random.seed(n)`: discards the ambient state. -/
def npSeed (n : ℕ) (_ : RngState) : RngState := ⟨n, 0⟩

/-- `np.random.random(24)`: 24 consecutive draws from the seeded stream. -/
def npRandom24 (rand : ℕ → ℕ → ℚ) (s : RngState) : (ℕ → ℚ) × RngState :=
  (fun i => rand s.seed (s.pos + i), ⟨s.seed, s.pos + 24⟩)

/-- The unscaled irradiance table of `_generate_solar_profile`: the loop
writes `peak_generation * g h` for daylight hours `6 ≤ h < 19` and
leaves 0 elsewhere, where `g h` stands for the Gaussian factor
`exp (-((h - 12) / 3) ^ 2 / 2)`. -/
def solarBase (g : ℕ → ℚ) (cfg : Config) (h : ℕ) : ℚ :=
  if 6 ≤ h ∧ h < 19 then 7 * (cfg.solar_capacity_kw / 5) * g h else 0

/-- Weather efficiency: 1.0 when sunny, 0.5 otherwise. -/
def weatherEfficiency (cfg : Config) : ℚ :=
  if cfg.weather_mode = "sunny" then 1 else 1 / 2

/-- Hourly solar value before the final 2-decimal rounding: base curve,
times weather efficiency, times the seeded ±10% perturbation
(`np.random.seed(42)`), clamped to be non-negative. -/
def solarRaw (g : ℕ → ℚ) (rand : ℕ → ℕ → ℚ) (cfg : Config) (s : RngState) (h : ℕ) : ℚ :=
  let r := (npRandom24 rand (npSeed 42 s)).1
  max (solarBase g cfg h * weatherEfficiency cfg * (1 + 1 / 10 * (r h - 1 / 2))) 0

/-- `_generate_solar_profile`, threading the global RNG state. -/
def generateSolarProfile (g : ℕ → ℚ) (rand : ℕ → ℕ → ℚ) (cfg : Config) (s : RngState) :
    (ℕ → ℚ) × RngState :=
  (fun h => roundTo 2 (solarRaw g rand cfg s h), (npRandom24 rand (npSeed 42 s)).2)

/-- The literal 24-entry Delhi residential load table. -/
def loadBase : ℕ → ℚ := fun h =>
  [1.5, 1.5, 1.5, 1.5, 2, 2.5,
   3.5, 4, 4.5, 3.5, 3, 2.5,
   2.5, 2.5, 3, 3.5, 4, 5,
   6.5, 7, 6.5, 5.5, 4, 2.5].getD h 0

/-- `_generate_load_profile`: base table with the seeded ±5% perturbation
(`np.random.seed(43)`), rounded to 2 decimals. -/
def generateLoadProfile (rand : ℕ → ℕ → ℚ) (s : RngState) : (ℕ → ℚ) × RngState :=
  (fun h => roundTo 2 (loadBase h * (1 + 1 / 20 * ((npRandom24 rand (npSeed 43 s)).1 h - 1 / 2))),
   (npRandom24 rand (npSeed 43 s)).2)

/-- `_generate_price_profile`: three-tier time-of-use pricing with the
hardcoded 6/18/22 boundaries. -/
def generatePriceProfile (cfg : Config) : ℕ → ℚ := fun h =>
  if h < 6 then cfg.off_peak_price
  else if h < 18 then cfg.standard_price
  else if h < 22 then cfg.peak_price
  else cfg.off_peak_price

/-- One iteration of the `simulate_baseline` loop body. -/
def baselineHour (cfg : Config) (hour : ℕ) (solar load price : ℚ) : HourRecord :=
  let solar_used := min solar load
  let grid_usage := max 0 (load - solar)
  let solar_excess := max 0 (solar - load)
  let cost := grid_usage * price
  { hour := hour
    solar_generation := roundTo 2 solar
    load_demand := roundTo 2 load
    solar_used := roundTo 2 solar_used
    solar_excess := roundTo 2 solar_excess
    grid_usage := roundTo 2 grid_usage
    battery_charge := 0
    battery_discharge := 0
    battery_soc := roundTo 1 (cfg.initial_soc * 100)
    grid_price := roundTo 3 price
    hourly_cost := roundTo 3 cost
    is_peak_hour := decide (cfg.peak_hours.1 ≤ hour ∧ hour < cfg.peak_hours.2) }

/-- `simulate_baseline` over given hourly series. -/
def simulateBaseline (cfg : Config) (solar load price : ℕ → ℚ) : List HourRecord :=
  (List.range 24).map fun h => baselineHour cfg h (solar h) (load h) (price h)

/-- Python float division: raises `ZeroDivisionError` on a zero divisor. -/
def pydiv (a b : ℚ) : Option ℚ := if b = 0 then none else some (a / b)

/-- STEP 2 of the smart loop body: charge the battery from solar excess.
Returns `(battery_charge, soc)`. The division `energy_to_store / capacity`
is the code's unguarded float division. -/
def chargeStep (cfg : Config) (solar_excess soc : ℚ) : Option (ℚ × ℚ) :=
  if 0 < solar_excess ∧ soc < cfg.max_soc then
    let available_capacity := (cfg.max_soc - soc) * cfg.battery_capacity_kwh
    let energy_to_store := min (solar_excess * cfg.battery_efficiency) available_capacity
    match pydiv energy_to_store cfg.battery_capacity_kwh with
    | none => none
    | some d => some (energy_to_store, min (soc + d) cfg.max_soc)
  else some (0, soc)

/-- STEP 3 of the smart loop body: peak-hour discharge, then the grid fills
the rest. Returns `(battery_discharge, soc, grid_usage)`. -/
def dischargeStep (cfg : Config) (is_peak : Bool) (remaining_load soc : ℚ) :
    Option (ℚ × ℚ × ℚ) :=
  if 0 < remaining_load then
    if is_peak ∧ cfg.min_soc < soc then
      let available_energy := (soc - cfg.min_soc) * cfg.battery_capacity_kwh
      let battery_discharge := min remaining_load (available_energy * cfg.battery_efficiency)
      match pydiv battery_discharge cfg.battery_efficiency with
      | none => none
      | some actual_discharge =>
        match pydiv actual_discharge cfg.battery_capacity_kwh with
        | none => none
        | some ds =>
          some (battery_discharge, max (soc - ds) cfg.min_soc,
            max 0 (remaining_load - battery_discharge))
    else some (0, soc, max 0 remaining_load)
  else some (0, soc, 0)

/-- The body of the `simulate_smart` hourly loop: direct solar use, charge
from excess, peak discharge, grid backup, then the hourly record. Returns
the record and the updated state of charge. -/
def smartStep (cfg : Config) (hour : ℕ) (solar load price soc : ℚ) :
    Option (HourRecord × ℚ) :=
  let is_peak : Bool := decide (cfg.peak_hours.1 ≤ hour ∧ hour < cfg.peak_hours.2)
  let solar_used := min solar load
  let remaining_load := load - solar_used
  let solar_excess := max 0 (solar - load)
  match chargeStep cfg solar_excess soc with
  | none => none
  | some (battery_charge, soc1) =>
    match dischargeStep cfg is_peak remaining_load soc1 with
    | none => none
    | some (battery_discharge, soc2, grid_usage) =>
      some
        ({ hour := hour
           solar_generation := roundTo 2 solar
           load_demand := roundTo 2 load
           solar_used := roundTo 2 solar_used
           solar_excess := roundTo 2 (max 0 (solar - load - battery_charge))
           grid_usage := roundTo 2 grid_usage
           battery_charge := roundTo 2 battery_charge
           battery_discharge := roundTo 2 battery_discharge
           battery_soc := roundTo 1 (soc2 * 100)
           grid_price := roundTo 3 price
           hourly_cost := roundTo 3 (grid_usage * price)
           is_peak_hour := is_peak }, soc2)

/-- The `simulate_smart` loop over a list of hours, threading the state of
charge. -/
def smartLoop (cfg : Config) (solar load price : ℕ → ℚ) :
    List ℕ → ℚ → Option (List HourRecord)
  | [], _ => some []
  | h :: hs, soc =>
    match smartStep cfg h (solar h) (load h) (price h) soc with
    | none => none
    | some (rec, soc') =>
      match smartLoop cfg solar load price hs soc' with
      | none => none
      | some recs => some (rec :: recs)

/-- `simulate_smart` over given hourly series: hours 0..23 starting from
`initial_soc`. -/
def simulateSmart (cfg : Config) (solar load price : ℕ → ℚ) : Option (List HourRecord) :=
  smartLoop cfg solar load price (List.range 24) cfg.initial_soc

/-- Sum of the recorded `hourly_cost` fields, as in `run_comparison`. -/
def totalCost (l : List HourRecord) : ℚ := (l.map HourRecord.hourly_cost).sum

/-- Sum of the recorded `grid_usage` fields, as in `run_comparison`. -/
def totalGrid (l : List HourRecord) : ℚ := (l.map HourRecord.grid_usage).sum

/-- `run_comparison`: both strategies over the same profiles, plus the
aggregate summary with its division-by-zero guards. -/
def runComparison (cfg : Config) (solar load price : ℕ → ℚ) : Option ComparisonResult :=
  let baseline_results := simulateBaseline cfg solar load price
  (simulateSmart cfg solar load price).map fun smart_results =>
    let baseline_total_cost := totalCost baseline_results
    let smart_total_cost := totalCost smart_results
    let baseline_grid_usage := totalGrid baseline_results
    let smart_grid_usage := totalGrid smart_results
    let cost_saved := baseline_total_cost - smart_total_cost
    let cost_saved_percent :=
      if 0 < baseline_total_cost then cost_saved / baseline_total_cost * 100 else 0
    let grid_reduced := baseline_grid_usage - smart_grid_usage
    let grid_reduced_percent :=
      if 0 < baseline_grid_usage then grid_reduced / baseline_grid_usage * 100 else 0
    { baseline_data := baseline_results
      smart_data := smart_results
      summary :=
        { baseline_total_cost := roundTo 2 baseline_total_cost
          smart_total_cost := roundTo 2 smart_total_cost
          cost_saved := roundTo 2 cost_saved
          cost_saved_percent := roundTo 1 cost_saved_percent
          baseline_grid_usage := roundTo 2 baseline_grid_usage
          smart_grid_usage := roundTo 2 smart_grid_usage
          grid_reduced := roundTo 2 grid_reduced
          grid_reduced_percent := roundTo 1 grid_reduced_percent
          battery_capacity_kwh := cfg.battery_capacity_kwh
          peak_price := cfg.peak_price
          off_peak_price := cfg.off_peak_price } }

/-- A whole simulator run (`MicrogridSimulator.__init__` followed by
`run_comparison`), threading the ambient numpy RNG state through the two
profile generators. -/
def microgridRun (g : ℕ → ℚ) (rand : ℕ → ℕ → ℚ) (cfg : Config) (s : RngState) :
    Option ComparisonResult :=
  let solarP := generateSolarProfile g rand cfg s
  let loadP := generateLoadProfile rand solarP.2
  runComparison cfg solarP.1 loadP.1 (generatePriceProfile cfg)

/-! ### Arithmetic helpers -/

lemma sub_min_eq_max (a b : ℚ) : b - min a b = max 0 (b - a) := by
  rcases le_total a b with h | h
  · rw [min_eq_left h, max_eq_right (by linarith)]
  · rw [min_eq_right h, max_eq_left (by linarith), sub_self]

lemma max_half (t : ℚ) : max (1 / 2 * t) 0 = 1 / 2 * max t 0 := by
  rcases le_total t 0 with h | h
  · rw [max_eq_right (by linarith), max_eq_right h, mul_zero]
  · rw [max_eq_left (by linarith), max_eq_left h]

/-! ### Step and loop specifications for the smart dispatch -/

lemma chargeStep_spec (cfg : Config) (hcap : 0 < cfg.battery_capacity_kwh)
    (heff : 0 < cfg.battery_efficiency) {soc : ℚ} (ex : ℚ)
    (h1 : cfg.min_soc ≤ soc) (h2 : soc ≤ cfg.max_soc) :
    ∃ bc soc', chargeStep cfg ex soc = some (bc, soc') ∧
      cfg.min_soc ≤ soc' ∧ soc' ≤ cfg.max_soc := by
  by_cases hc : 0 < ex ∧ soc < cfg.max_soc
  · have hcap' : cfg.battery_capacity_kwh ≠ 0 := ne_of_gt hcap
    have he : 0 < min (ex * cfg.battery_efficiency)
        ((cfg.max_soc - soc) * cfg.battery_capacity_kwh) :=
      lt_min (mul_pos hc.1 heff) (mul_pos (sub_pos.mpr hc.2) hcap)
    have heq : chargeStep cfg ex soc =
        some (min (ex * cfg.battery_efficiency) ((cfg.max_soc - soc) * cfg.battery_capacity_kwh),
          min (soc + min (ex * cfg.battery_efficiency)
            ((cfg.max_soc - soc) * cfg.battery_capacity_kwh) / cfg.battery_capacity_kwh)
            cfg.max_soc) := by
      simp only [chargeStep, if_pos hc, pydiv, if_neg hcap']
    refine ⟨_, _, heq, ?_, min_le_right _ _⟩
    exact le_min (h1.trans (le_add_of_nonneg_right (div_pos he hcap).le)) (h1.trans h2)
  · exact ⟨0, soc, by simp only [chargeStep, if_neg hc], h1, h2⟩

lemma dischargeStep_spec (cfg : Config) (hcap : 0 < cfg.battery_capacity_kwh)
    (heff : 0 < cfg.battery_efficiency) (ip : Bool) {rl soc : ℚ}
    (h1 : cfg.min_soc ≤ soc) (h2 : soc ≤ cfg.max_soc) (hrl : 0 ≤ rl) :
    ∃ bd soc' g, dischargeStep cfg ip rl soc = some (bd, soc', g) ∧
      cfg.min_soc ≤ soc' ∧ soc' ≤ cfg.max_soc ∧ 0 ≤ bd ∧ bd ≤ rl ∧ g = rl - bd := by
  by_cases h : 0 < rl
  · by_cases hd : ip = true ∧ cfg.min_soc < soc
    · have hcap' : cfg.battery_capacity_kwh ≠ 0 := ne_of_gt hcap
      have heff' : cfg.battery_efficiency ≠ 0 := ne_of_gt heff
      have hbd : 0 ≤ min rl ((soc - cfg.min_soc) * cfg.battery_capacity_kwh *
          cfg.battery_efficiency) :=
        le_min h.le (mul_pos (mul_pos (sub_pos.mpr hd.2) hcap) heff).le
      have hble : min rl ((soc - cfg.min_soc) * cfg.battery_capacity_kwh *
          cfg.battery_efficiency) ≤ rl := min_le_left _ _
      have heq : dischargeStep cfg ip rl soc =
          some (min rl ((soc - cfg.min_soc) * cfg.battery_capacity_kwh *
              cfg.battery_efficiency),
            max (soc - min rl ((soc - cfg.min_soc) * cfg.battery_capacity_kwh *
              cfg.battery_efficiency) / cfg.battery_efficiency / cfg.battery_capacity_kwh)
              cfg.min_soc,
            max 0 (rl - min rl ((soc - cfg.min_soc) * cfg.battery_capacity_kwh *
              cfg.battery_efficiency))) := by
        simp only [dischargeStep, if_pos h, if_pos hd, pydiv, if_neg heff', if_neg hcap']
      refine ⟨_, _, _, heq, le_max_right _ _, ?_, hbd, hble, ?_⟩
      · refine max_le ?_ (h1.trans h2)
        have hdv : 0 ≤ min rl ((soc - cfg.min_soc) * cfg.battery_capacity_kwh *
            cfg.battery_efficiency) / cfg.battery_efficiency / cfg.battery_capacity_kwh := by
          positivity
        linarith
      · exact max_eq_right (by linarith)
    · refine ⟨0, soc, max 0 rl, ?_, h1, h2, le_refl 0, hrl, ?_⟩
      · simp only [dischargeStep, if_pos h, if_neg hd]
      · rw [max_eq_right h.le, sub_zero]
  · have hrl0 : rl = 0 := le_antisymm (not_lt.mp h) hrl
    refine ⟨0, soc, 0, ?_, h1, h2, le_refl 0, hrl, by rw [hrl0, sub_zero]⟩
    simp only [dischargeStep, if_neg h]

/-- What one smart hour guarantees about its record: the reported SoC is a
rounded in-bounds SoC, the energy fields are the rounded images of exact
values satisfying per-hour conservation, and the exact grid draw is
non-negative and at most the baseline deficit `max 0 (load - sol)`. -/
def SmartRecSpec (cfg : Config) (sol load price : ℚ) (r : HourRecord) : Prop :=
  ∃ s g bd,
    cfg.min_soc ≤ s ∧ s ≤ cfg.max_soc ∧
    r.battery_soc = roundTo 1 (s * 100) ∧
    r.load_demand = roundTo 2 load ∧
    r.solar_used = roundTo 2 (min sol load) ∧
    r.grid_usage = roundTo 2 g ∧
    r.battery_discharge = roundTo 2 bd ∧
    r.hourly_cost = roundTo 3 (g * price) ∧
    0 ≤ g ∧ load = min sol load + g + bd ∧ g ≤ max 0 (load - sol)

lemma smartStep_spec (cfg : Config) (hcap : 0 < cfg.battery_capacity_kwh)
    (heff : 0 < cfg.battery_efficiency) (hour : ℕ) (sol load price : ℚ) {soc : ℚ}
    (h1 : cfg.min_soc ≤ soc) (h2 : soc ≤ cfg.max_soc) :
    ∃ rec soc', smartStep cfg hour sol load price soc = some (rec, soc') ∧
      cfg.min_soc ≤ soc' ∧ soc' ≤ cfg.max_soc ∧ SmartRecSpec cfg sol load price rec := by
  obtain ⟨bc, soc1, hch, hb1, hb2⟩ :=
    chargeStep_spec cfg hcap heff (max 0 (sol - load)) h1 h2
  have hrl : 0 ≤ load - min sol load := sub_nonneg.mpr (min_le_right _ _)
  obtain ⟨bd, soc2, gq, hdis, hd1, hd2, hbd0, hbdle, hg⟩ :=
    dischargeStep_spec cfg hcap heff
      (decide (cfg.peak_hours.1 ≤ hour ∧ hour < cfg.peak_hours.2)) hb1 hb2 hrl
  have hstep : smartStep cfg hour sol load price soc =
      some
        ({ hour := hour
           solar_generation := roundTo 2 sol
           load_demand := roundTo 2 load
           solar_used := roundTo 2 (min sol load)
           solar_excess := roundTo 2 (max 0 (sol - load - bc))
           grid_usage := roundTo 2 gq
           battery_charge := roundTo 2 bc
           battery_discharge := roundTo 2 bd
           battery_soc := roundTo 1 (soc2 * 100)
           grid_price := roundTo 3 price
           hourly_cost := roundTo 3 (gq * price)
           is_peak_hour := decide (cfg.peak_hours.1 ≤ hour ∧ hour < cfg.peak_hours.2) },
          soc2) := by
    simp only [smartStep, hch, hdis]
  refine ⟨_, soc2, hstep, hd1, hd2, soc2, gq, bd, hd1, hd2, rfl, rfl, rfl, rfl, rfl, rfl,
    ?_, ?_, ?_⟩
  · rw [hg]; linarith
  · rw [hg]; ring
  · rw [hg, ← sub_min_eq_max]; linarith

lemma smartLoop_spec (cfg : Config) (sol load price : ℕ → ℚ)
    (hcap : 0 < cfg.battery_capacity_kwh) (heff : 0 < cfg.battery_efficiency) :
    ∀ (hs : List ℕ) (soc : ℚ), cfg.min_soc ≤ soc → soc ≤ cfg.max_soc →
    ∃ recs, smartLoop cfg sol load price hs soc = some recs ∧
      recs.length = hs.length ∧
      ∀ (i k : ℕ), hs[i]? = some k →
        ∃ r, recs[i]? = some r ∧ SmartRecSpec cfg (sol k) (load k) (price k) r := by
  intro hs
  induction hs with
  | nil =>
    intro soc _ _
    exact ⟨[], rfl, rfl, by intro i k hk; simp at hk⟩
  | cons h t ih =>
    intro soc hs1 hs2
    obtain ⟨rec, soc', hstep, hb1, hb2, hrs⟩ :=
      smartStep_spec cfg hcap heff h (sol h) (load h) (price h) hs1 hs2
    obtain ⟨recs, hrecs, hlen, hspec⟩ := ih soc' hb1 hb2
    refine ⟨rec :: recs, ?_, by simp [hlen], ?_⟩
    · simp only [smartLoop, hstep, hrecs]
    · intro i k hk
      cases i with
      | zero =>
        simp only [List.getElem?_cons_zero, Option.some.injEq] at hk
        exact ⟨rec, by simp, hk ▸ hrs⟩
      | succ j =>
        simp only [List.getElem?_cons_succ] at hk ⊢
        exact hspec j k hk

lemma chargeStep_isSome (cfg : Config) (hcap : cfg.battery_capacity_kwh ≠ 0)
    (ex soc : ℚ) : ∃ bc soc', chargeStep cfg ex soc = some (bc, soc') := by
  by_cases hc : 0 < ex ∧ soc < cfg.max_soc
  · have heq : chargeStep cfg ex soc =
        some (min (ex * cfg.battery_efficiency) ((cfg.max_soc - soc) * cfg.battery_capacity_kwh),
          min (soc + min (ex * cfg.battery_efficiency)
            ((cfg.max_soc - soc) * cfg.battery_capacity_kwh) / cfg.battery_capacity_kwh)
            cfg.max_soc) := by
      simp only [chargeStep, if_pos hc, pydiv, if_neg hcap]
    exact ⟨_, _, heq⟩
  · exact ⟨0, soc, by simp only [chargeStep, if_neg hc]⟩

lemma dischargeStep_isSome (cfg : Config) (hcap : cfg.battery_capacity_kwh ≠ 0)
    (heff : cfg.battery_efficiency ≠ 0) (ip : Bool) (rl soc : ℚ) :
    ∃ bd soc' g, dischargeStep cfg ip rl soc = some (bd, soc', g) := by
  by_cases h : 0 < rl
  · by_cases hd : ip = true ∧ cfg.min_soc < soc
    · have heq : dischargeStep cfg ip rl soc =
          some (min rl ((soc - cfg.min_soc) * cfg.battery_capacity_kwh *
              cfg.battery_efficiency),
            max (soc - min rl ((soc - cfg.min_soc) * cfg.battery_capacity_kwh *
              cfg.battery_efficiency) / cfg.battery_efficiency / cfg.battery_capacity_kwh)
              cfg.min_soc,
            max 0 (rl - min rl ((soc - cfg.min_soc) * cfg.battery_capacity_kwh *
              cfg.battery_efficiency))) := by
        simp only [dischargeStep, if_pos h, if_pos hd, pydiv, if_neg heff, if_neg hcap]
      exact ⟨_, _, _, heq⟩
    · exact ⟨0, soc, max 0 rl, by simp only [dischargeStep, if_pos h, if_neg hd]⟩
  · exact ⟨0, soc, 0, by simp only [dischargeStep, if_neg h]⟩

lemma smartStep_isSome (cfg : Config) (hcap : cfg.battery_capacity_kwh ≠ 0)
    (heff : cfg.battery_efficiency ≠ 0) (hour : ℕ) (sol load price soc : ℚ) :
    ∃ rec soc', smartStep cfg hour sol load price soc = some (rec, soc') := by
  obtain ⟨bc, soc1, hch⟩ := chargeStep_isSome cfg hcap (max 0 (sol - load)) soc
  obtain ⟨bd, soc2, gq, hdis⟩ := dischargeStep_isSome cfg hcap heff
    (decide (cfg.peak_hours.1 ≤ hour ∧ hour < cfg.peak_hours.2)) (load - min sol load) soc1
  have hstep : smartStep cfg hour sol load price soc =
      some
        ({ hour := hour
           solar_generation := roundTo 2 sol
           load_demand := roundTo 2 load
           solar_used := roundTo 2 (min sol load)
           solar_excess := roundTo 2 (max 0 (sol - load - bc))
           grid_usage := roundTo 2 gq
           battery_charge := roundTo 2 bc
           battery_discharge := roundTo 2 bd
           battery_soc := roundTo 1 (soc2 * 100)
           grid_price := roundTo 3 price
           hourly_cost := roundTo 3 (gq * price)
           is_peak_hour := decide (cfg.peak_hours.1 ≤ hour ∧ hour < cfg.peak_hours.2) },
          soc2) := by
    simp only [smartStep, hch, hdis]
  exact ⟨_, soc2, hstep⟩

lemma smartLoop_isSome (cfg : Config) (sol load price : ℕ → ℚ)
    (hcap : cfg.battery_capacity_kwh ≠ 0) (heff : cfg.battery_efficiency ≠ 0) :
    ∀ (hs : List ℕ) (soc : ℚ),
    ∃ recs, smartLoop cfg sol load price hs soc = some recs ∧ recs.length = hs.length := by
  intro hs
  induction hs with
  | nil => exact fun _ => ⟨[], rfl, rfl⟩
  | cons h t ih =>
    intro soc
    obtain ⟨rec, soc', hstep⟩ := smartStep_isSome cfg hcap heff h (sol h) (load h) (price h) soc
    obtain ⟨recs, hrecs, hlen⟩ := ih soc'
    exact ⟨rec :: recs, by simp only [smartLoop, hstep, hrecs], by simp [hlen]⟩

lemma smartLoop_head (cfg : Config) (sol load price : ℕ → ℚ)
    (hcap : cfg.battery_capacity_kwh ≠ 0) (heff : cfg.battery_efficiency ≠ 0)
    {h : ℕ} {hs : List ℕ} {soc : ℚ} {rec : HourRecord} {soc' : ℚ}
    (hstep : smartStep cfg h (sol h) (load h) (price h) soc = some (rec, soc')) :
    ∃ recs, smartLoop cfg sol load price (h :: hs) soc = some recs ∧
      recs[0]? = some rec := by
  obtain ⟨rest, hrest, _⟩ := smartLoop_isSome cfg sol load price hcap heff hs soc'
  exact ⟨rec :: rest, by simp only [smartLoop, hstep, hrest], by simp⟩

lemma simulateBaseline_getElem (cfg : Config) (sol load price : ℕ → ℚ) {h : ℕ}
    (hh : h < 24) :
    (simulateBaseline cfg sol load price)[h]? =
      some (baselineHour cfg h (sol h) (load h) (price h)) := by
  simp [simulateBaseline, List.getElem?_map, List.getElem?_range, hh]

lemma sum_le_sum_idx : ∀ (xs ys : List ℚ), xs.length = ys.length →
    (∀ (i : ℕ) (x y : ℚ), xs[i]? = some x → ys[i]? = some y → x ≤ y) → xs.sum ≤ ys.sum
  | [], [], _, _ => le_refl _
  | [], _ :: _, h, _ => by simp at h
  | _ :: _, [], h, _ => by simp at h
  | x :: xs, y :: ys, h, hp => by
    simp only [List.sum_cons]
    have h0 := hp 0 x y (by simp) (by simp)
    have ht := sum_le_sum_idx xs ys (by simpa using h)
      (fun i a b ha hb => hp (i + 1) a b (by simpa using ha) (by simpa using hb))
    linarith

/-! ### Concrete instances used by witnesses and counterexamples -/

/-- The default configuration of `SimulationConfig`. -/
def cfgD : Config := {}

/-- Constant hourly series used to instantiate witnesses. -/
def solD : ℕ → ℚ := fun _ => 3

def loadD : ℕ → ℚ := fun _ => 2

def priceD : ℕ → ℚ := fun _ => 5

/-- Stand-in for the abstract Gaussian irradiance factor. -/
def gU : ℕ → ℚ := fun _ => 1

/-- Stand-in for the seeded pseudo-random stream: every draw is 1/2, so
every perturbation factor is exactly 1. -/
def randU : ℕ → ℕ → ℚ := fun _ _ => 1 / 2

/-- An arbitrary ambient RNG state. -/
def rng0 : RngState := ⟨0, 0⟩

/-- Valid configuration whose SoC bounds are not multiples of 0.001:
`min_soc = initial_soc = 0.1234`. -/
def cfgX : Config := { min_soc := 0.1234, initial_soc := 0.1234 }

/-- Valid configuration with `initial_soc = 0.5055`, not representable in
one decimal place of percent. -/
def cfgE : Config := { initial_soc := 0.5055 }

/-- Degenerate configuration with zero battery capacity. -/
def cfgZ : Config := { battery_capacity_kwh := 0 }

def solZ : ℕ → ℚ := fun _ => 5

def loadZ : ℕ → ℚ := fun _ => 2

def priceZ : ℕ → ℚ := fun _ => 5

/-- Valid configuration with a fully charged starting battery. -/
def cfgP : Config := { initial_soc := 1 }

/-! ### Claim C2 -/

/-- C2: the simulation is deterministic. Both profile generators reseed
numpy's global generator with the fixed constants 42 (solar) and 43
(load), so their output — and hence the whole `ComparisonResult` — is
independent of the ambient RNG state: two runs from any two ambient
states agree exactly. -/
theorem simulation_deterministic (g : ℕ → ℚ) (rand : ℕ → ℕ → ℚ) (cfg : Config)
    (s₁ s₂ : RngState) :
    (generateSolarProfile g rand cfg s₁).1 = (generateSolarProfile g rand cfg s₂).1 ∧
    (generateLoadProfile rand s₁).1 = (generateLoadProfile rand s₂).1 ∧
    microgridRun g rand cfg s₁ = microgridRun g rand cfg s₂ :=
  ⟨rfl, rfl, rfl⟩

/-! ### Claim C6 -/

/-- C6: the generated price series is `off_peak_price` for `h < 6` and
`h ≥ 22`, `standard_price` for `6 ≤ h < 18`, `peak_price` for
`18 ≤ h < 22`, and does not depend on the configurable `peak_hours`. -/
theorem price_profile_tiers (cfg : Config) (h : ℕ) (hh : h < 24) :
    ((h < 6 ∨ 22 ≤ h) → generatePriceProfile cfg h = cfg.off_peak_price) ∧
    (6 ≤ h → h < 18 → generatePriceProfile cfg h = cfg.standard_price) ∧
    (18 ≤ h → h < 22 → generatePriceProfile cfg h = cfg.peak_price) ∧
    ∀ ph : ℕ × ℕ,
      generatePriceProfile { cfg with peak_hours := ph } h = generatePriceProfile cfg h := by
  unfold generatePriceProfile
  refine ⟨?_, ?_, ?_, fun ph => rfl⟩
  · rintro (h6 | h22)
    · rw [if_pos h6]
    · rw [if_neg (by omega), if_neg (by omega), if_neg (by omega)]
  · intro hl hu
    rw [if_neg (by omega), if_pos hu]
  · intro hl hu
    rw [if_neg (by omega), if_neg (by omega), if_pos hu]

/-- Witness for C6 at hour 19 of the default configuration. -/
theorem price_profile_tiers_witness :
    (((19 : ℕ) < 6 ∨ 22 ≤ 19) → generatePriceProfile cfgD 19 = cfgD.off_peak_price) ∧
    (6 ≤ 19 → 19 < 18 → generatePriceProfile cfgD 19 = cfgD.standard_price) ∧
    (18 ≤ 19 → 19 < 22 → generatePriceProfile cfgD 19 = cfgD.peak_price) ∧
    ∀ ph : ℕ × ℕ,
      generatePriceProfile { cfgD with peak_hours := ph } 19 = generatePriceProfile cfgD 19 :=
  price_profile_tiers cfgD 19 (by norm_num)

/-! ### Claim C8 -/

/-- C8: with identical irradiance curve and identical seeded perturbation,
the cloudy run's pre-rounding solar value is exactly half the sunny run's
at every hour, and both rounded profiles are zero outside the daylight
window `[6, 19)`. -/
theorem cloudy_halves_solar (g : ℕ → ℚ) (rand : ℕ → ℕ → ℚ) (cfg : Config) (s : RngState)
    (hw : cfg.weather_mode = "sunny") :
    (∀ h : ℕ, solarRaw g rand { cfg with weather_mode := "cloudy" } s h
        = 1 / 2 * solarRaw g rand cfg s h) ∧
    (∀ h : ℕ, h < 6 ∨ 19 ≤ h →
      (generateSolarProfile g rand { cfg with weather_mode := "cloudy" } s).1 h = 0 ∧
      (generateSolarProfile g rand cfg s).1 h = 0) := by
  have hc : ("cloudy" : String) ≠ "sunny" := by decide
  constructor
  · intro h
    simp only [solarRaw, weatherEfficiency, solarBase, hw, if_neg hc, eq_self_iff_true,
      if_true]
    rw [← max_half]
    congr 1
    ring
  · intro h hcond
    have hb : ¬(6 ≤ h ∧ h < 19) := by omega
    constructor <;>
      simp only [generateSolarProfile, solarRaw, solarBase, if_neg hb, zero_mul, max_self,
        roundTo_zero]

/-- Witness for C8 at the default sunny configuration with the concrete
stand-in curve and stream. -/
theorem cloudy_halves_solar_witness :
    (∀ h : ℕ, solarRaw gU randU { cfgD with weather_mode := "cloudy" } rng0 h
        = 1 / 2 * solarRaw gU randU cfgD rng0 h) ∧
    (∀ h : ℕ, h < 6 ∨ 19 ≤ h →
      (generateSolarProfile gU randU { cfgD with weather_mode := "cloudy" } rng0).1 h = 0 ∧
      (generateSolarProfile gU randU cfgD rng0).1 h = 0) :=
  cloudy_halves_solar gU randU cfgD rng0 rfl

/-! ### Claim C5 (corrected) -/

/-- C5 counterexample: for `initial_soc = 0.5055` the recorded baseline
`battery_soc` is `round(50.55, 1)`, which cannot equal `50.55`: in this
model it is 50.6 (CPython returns 50.5 on the binary float); either way
the record does not carry `initial_soc × 100` itself. The profiles are
the generated ones, so this is a full pipeline run. -/
theorem baseline_reported_soc_not_initial :
    ((simulateBaseline cfgE (generateSolarProfile gU randU cfgE rng0).1
        (generateLoadProfile randU (generateSolarProfile gU randU cfgE rng0).2).1
        (generatePriceProfile cfgE))[0]?).map HourRecord.battery_soc
      ≠ some (cfgE.initial_soc * 100) := by
  rw [simulateBaseline_getElem cfgE _ _ _ (by norm_num : (0 : ℕ) < 24)]
  have hr : roundTo 1 (cfgE.initial_soc * 100) = 253 / 5 := by
    rw [roundTo_eq_of 1 (cfgE.initial_soc * 100) 506 (by norm_num [cfgE]) (by norm_num [cfgE])]
    norm_num
  simp only [Option.map_some', baselineHour, hr]
  intro hcontra
  rw [Option.some.injEq] at hcontra
  norm_num [cfgE] at hcontra

/-- C5 amended: every baseline record carries the rounded images of
`min(solar, load)`, `max(0, load - solar)`, `max(0, solar - load)` and
`grid_usage × price`, zero battery flows, and the same static
`battery_soc = round(initial_soc × 100, 1)` in all 24 records. -/
theorem baseline_hour_fields (cfg : Config) (sol load price : ℕ → ℚ) (h : ℕ)
    (hh : h < 24) :
    ∃ r, (simulateBaseline cfg sol load price)[h]? = some r ∧
      r.hour = h ∧
      r.solar_used = roundTo 2 (min (sol h) (load h)) ∧
      r.grid_usage = roundTo 2 (max 0 (load h - sol h)) ∧
      r.solar_excess = roundTo 2 (max 0 (sol h - load h)) ∧
      r.hourly_cost = roundTo 3 (max 0 (load h - sol h) * price h) ∧
      r.battery_charge = 0 ∧
      r.battery_discharge = 0 ∧
      r.battery_soc = roundTo 1 (cfg.initial_soc * 100) :=
  ⟨_, simulateBaseline_getElem cfg sol load price hh, rfl, rfl, rfl, rfl, rfl, rfl, rfl, rfl⟩

/-- Witness for the amended C5 at hour 0 of the default configuration. -/
theorem baseline_hour_fields_witness :
    ∃ r, (simulateBaseline cfgD solD loadD priceD)[0]? = some r ∧
      r.hour = 0 ∧
      r.solar_used = roundTo 2 (min (solD 0) (loadD 0)) ∧
      r.grid_usage = roundTo 2 (max 0 (loadD 0 - solD 0)) ∧
      r.solar_excess = roundTo 2 (max 0 (solD 0 - loadD 0)) ∧
      r.hourly_cost = roundTo 3 (max 0 (loadD 0 - solD 0) * priceD 0) ∧
      r.battery_charge = 0 ∧
      r.battery_discharge = 0 ∧
      r.battery_soc = roundTo 1 (cfgD.initial_soc * 100) :=
  baseline_hour_fields cfgD solD loadD priceD 0 (by norm_num)

/-! ### Claim C7 -/

/-- C7: the summary's `cost_saved` is (the rounding of) the difference of
the two cost totals, `cost_saved_percent` is 0 whenever the baseline
total is 0 and otherwise the rounded ratio, and likewise for the grid
pair — all values are ordinary rationals, never undefined. -/
theorem summary_savings_guarded (cfg : Config) (sol load price : ℕ → ℚ)
    (hcap : cfg.battery_capacity_kwh ≠ 0) (heff : cfg.battery_efficiency ≠ 0) :
    ∃ res, runComparison cfg sol load price = some res ∧
      res.summary.cost_saved =
        roundTo 2 (totalCost res.baseline_data - totalCost res.smart_data) ∧
      (totalCost res.baseline_data = 0 → res.summary.cost_saved_percent = 0) ∧
      (0 < totalCost res.baseline_data → res.summary.cost_saved_percent =
        roundTo 1 ((totalCost res.baseline_data - totalCost res.smart_data)
          / totalCost res.baseline_data * 100)) ∧
      res.summary.grid_reduced =
        roundTo 2 (totalGrid res.baseline_data - totalGrid res.smart_data) ∧
      (totalGrid res.baseline_data = 0 → res.summary.grid_reduced_percent = 0) ∧
      (0 < totalGrid res.baseline_data → res.summary.grid_reduced_percent =
        roundTo 1 ((totalGrid res.baseline_data - totalGrid res.smart_data)
          / totalGrid res.baseline_data * 100)) := by
  obtain ⟨recs, hsm, -⟩ :=
    smartLoop_isSome cfg sol load price hcap heff (List.range 24) cfg.initial_soc
  have hss : simulateSmart cfg sol load price = some recs := hsm
  have hrun : runComparison cfg sol load price = some
      { baseline_data := simulateBaseline cfg sol load price
        smart_data := recs
        summary :=
          { baseline_total_cost := roundTo 2 (totalCost (simulateBaseline cfg sol load price))
            smart_total_cost := roundTo 2 (totalCost recs)
            cost_saved :=
              roundTo 2 (totalCost (simulateBaseline cfg sol load price) - totalCost recs)
            cost_saved_percent := roundTo 1
              (if 0 < totalCost (simulateBaseline cfg sol load price) then
                (totalCost (simulateBaseline cfg sol load price) - totalCost recs)
                  / totalCost (simulateBaseline cfg sol load price) * 100
              else 0)
            baseline_grid_usage := roundTo 2 (totalGrid (simulateBaseline cfg sol load price))
            smart_grid_usage := roundTo 2 (totalGrid recs)
            grid_reduced :=
              roundTo 2 (totalGrid (simulateBaseline cfg sol load price) - totalGrid recs)
            grid_reduced_percent := roundTo 1
              (if 0 < totalGrid (simulateBaseline cfg sol load price) then
                (totalGrid (simulateBaseline cfg sol load price) - totalGrid recs)
                  / totalGrid (simulateBaseline cfg sol load price) * 100
              else 0)
            battery_capacity_kwh := cfg.battery_capacity_kwh
            peak_price := cfg.peak_price
            off_peak_price := cfg.off_peak_price } } := by
    simp only [runComparison, hss, Option.map_some']
  refine ⟨_, hrun, rfl, ?_, ?_, rfl, ?_, ?_⟩
  · intro h0
    have hne : ¬(0 < totalCost (simulateBaseline cfg sol load price)) := by
      rw [h0]; exact lt_irrefl 0
    simp only [if_neg hne, roundTo_zero]
  · intro hpos
    simp only [if_pos hpos]
  · intro h0
    have hne : ¬(0 < totalGrid (simulateBaseline cfg sol load price)) := by
      rw [h0]; exact lt_irrefl 0
    simp only [if_neg hne, roundTo_zero]
  · intro hpos
    simp only [if_pos hpos]

/-- Witness for C7 at the default configuration. -/
theorem summary_savings_guarded_witness :
    ∃ res, runComparison cfgD solD loadD priceD = some res ∧
      res.summary.cost_saved =
        roundTo 2 (totalCost res.baseline_data - totalCost res.smart_data) ∧
      (totalCost res.baseline_data = 0 → res.summary.cost_saved_percent = 0) ∧
      (0 < totalCost res.baseline_data → res.summary.cost_saved_percent =
        roundTo 1 ((totalCost res.baseline_data - totalCost res.smart_data)
          / totalCost res.baseline_data * 100)) ∧
      res.summary.grid_reduced =
        roundTo 2 (totalGrid res.baseline_data - totalGrid res.smart_data) ∧
      (totalGrid res.baseline_data = 0 → res.summary.grid_reduced_percent = 0) ∧
      (0 < totalGrid res.baseline_data → res.summary.grid_reduced_percent =
        roundTo 1 ((totalGrid res.baseline_data - totalGrid res.smart_data)
          / totalGrid res.baseline_data * 100)) :=
  summary_savings_guarded cfgD solD loadD priceD (by norm_num [cfgD]) (by norm_num [cfgD])

/-! ### Claim C1 (corrected) -/

/-- C1 amended: for every valid configuration the exact state of charge
stays in `[min_soc, max_soc]` at every hour of the smart pass, and the
reported `battery_soc` of every smart record is that SoC times 100
rounded to one decimal — hence within `[min_soc·100 - 0.05,
max_soc·100 + 0.05]` (not necessarily within `[min_soc·100,
max_soc·100]` itself, see the counterexample). -/
theorem smart_soc_stays_within_bounds (cfg : Config) (sol load price : ℕ → ℚ)
    (h1 : cfg.min_soc ≤ cfg.initial_soc) (h2 : cfg.initial_soc ≤ cfg.max_soc)
    (hcap : 0 < cfg.battery_capacity_kwh) (heff : 0 < cfg.battery_efficiency)
    (heff1 : cfg.battery_efficiency ≤ 1) :
    ∃ recs, simulateSmart cfg sol load price = some recs ∧ recs.length = 24 ∧
      ∀ r ∈ recs, ∃ s, cfg.min_soc ≤ s ∧ s ≤ cfg.max_soc ∧
        r.battery_soc = roundTo 1 (s * 100) ∧
        cfg.min_soc * 100 - 1 / 20 ≤ r.battery_soc ∧
        r.battery_soc ≤ cfg.max_soc * 100 + 1 / 20 := by
  obtain ⟨recs, hrun, hlen, hspec⟩ :=
    smartLoop_spec cfg sol load price hcap heff (List.range 24) cfg.initial_soc h1 h2
  refine ⟨recs, hrun, by simpa using hlen, ?_⟩
  intro r hr
  obtain ⟨i, hi⟩ := List.mem_iff_getElem?.mp hr
  have hi24 : i < 24 := by
    have hilt : i < recs.length := (List.getElem?_eq_some.mp hi).1
    rw [hlen, List.length_range] at hilt
    exact hilt
  obtain ⟨r', hr', hsp⟩ := hspec i i (by simp [List.getElem?_range, hi24])
  rw [hi] at hr'
  obtain rfl : r = r' := Option.some.inj hr'
  obtain ⟨s, g, bd, hs1, hs2, hsoc, -, -, -, -, -, -, -, -⟩ := hsp
  have hb : |roundTo 1 (s * 100) - s * 100| ≤ 1 / 20 := by
    have hx := abs_roundTo_sub 1 (s * 100)
    norm_num at hx
    exact hx
  have habs := abs_le.mp hb
  have hlow : cfg.min_soc * 100 ≤ s * 100 := by nlinarith
  have hhigh : s * 100 ≤ cfg.max_soc * 100 := by nlinarith
  exact ⟨s, hs1, hs2, hsoc, by rw [hsoc]; linarith [habs.1], by rw [hsoc]; linarith [habs.2]⟩

/-- Witness for the amended C1 at the default configuration. -/
theorem smart_soc_stays_within_bounds_witness :
    ∃ recs, simulateSmart cfgD solD loadD priceD = some recs ∧ recs.length = 24 ∧
      ∀ r ∈ recs, ∃ s, cfgD.min_soc ≤ s ∧ s ≤ cfgD.max_soc ∧
        r.battery_soc = roundTo 1 (s * 100) ∧
        cfgD.min_soc * 100 - 1 / 20 ≤ r.battery_soc ∧
        r.battery_soc ≤ cfgD.max_soc * 100 + 1 / 20 :=
  smart_soc_stays_within_bounds cfgD solD loadD priceD (by norm_num [cfgD])
    (by norm_num [cfgD]) (by norm_num [cfgD]) (by norm_num [cfgD]) (by norm_num [cfgD])

/-! ### Claim C4 -/

/-- C4: per-hour energy conservation of the smart strategy. The exact
values satisfy `load = solar_used + grid + discharge` exactly; the four
recorded fields are each rounded to 2 decimals, so the recorded identity
holds within `4 × 0.005 = 0.02`. -/
theorem smart_energy_conservation (cfg : Config) (sol load price : ℕ → ℚ)
    (h1 : cfg.min_soc ≤ cfg.initial_soc) (h2 : cfg.initial_soc ≤ cfg.max_soc)
    (hcap : 0 < cfg.battery_capacity_kwh) (heff : 0 < cfg.battery_efficiency) :
    ∃ recs, simulateSmart cfg sol load price = some recs ∧ recs.length = 24 ∧
      ∀ r ∈ recs,
        |r.load_demand - (r.solar_used + r.grid_usage + r.battery_discharge)| ≤ 1 / 50 := by
  obtain ⟨recs, hrun, hlen, hspec⟩ :=
    smartLoop_spec cfg sol load price hcap heff (List.range 24) cfg.initial_soc h1 h2
  refine ⟨recs, hrun, by simpa using hlen, ?_⟩
  intro r hr
  obtain ⟨i, hi⟩ := List.mem_iff_getElem?.mp hr
  have hi24 : i < 24 := by
    have hilt : i < recs.length := (List.getElem?_eq_some.mp hi).1
    rw [hlen, List.length_range] at hilt
    exact hilt
  obtain ⟨r', hr', hsp⟩ := hspec i i (by simp [List.getElem?_range, hi24])
  rw [hi] at hr'
  obtain rfl : r = r' := Option.some.inj hr'
  obtain ⟨s, g, bd, -, -, -, hld, hsu, hgu, hbd, -, -, hcons, -⟩ := hsp
  have aL : |roundTo 2 (load i) - load i| ≤ 1 / 200 := by
    have hx := abs_roundTo_sub 2 (load i); norm_num at hx; exact hx
  have aU : |roundTo 2 (min (sol i) (load i)) - min (sol i) (load i)| ≤ 1 / 200 := by
    have hx := abs_roundTo_sub 2 (min (sol i) (load i)); norm_num at hx; exact hx
  have aG : |roundTo 2 g - g| ≤ 1 / 200 := by
    have hx := abs_roundTo_sub 2 g; norm_num at hx; exact hx
  have aB : |roundTo 2 bd - bd| ≤ 1 / 200 := by
    have hx := abs_roundTo_sub 2 bd; norm_num at hx; exact hx
  rw [hld, hsu, hgu, hbd]
  have hkey : roundTo 2 (load i) -
      (roundTo 2 (min (sol i) (load i)) + roundTo 2 g + roundTo 2 bd) =
      (roundTo 2 (load i) - load i) -
        (roundTo 2 (min (sol i) (load i)) - min (sol i) (load i)) -
        (roundTo 2 g - g) - (roundTo 2 bd - bd) := by
    linear_combination hcons
  rw [hkey]
  have t1 := abs_sub ((roundTo 2 (load i) - load i) -
    (roundTo 2 (min (sol i) (load i)) - min (sol i) (load i)) - (roundTo 2 g - g))
    (roundTo 2 bd - bd)
  have t2 := abs_sub ((roundTo 2 (load i) - load i) -
    (roundTo 2 (min (sol i) (load i)) - min (sol i) (load i))) (roundTo 2 g - g)
  have t3 := abs_sub (roundTo 2 (load i) - load i)
    (roundTo 2 (min (sol i) (load i)) - min (sol i) (load i))
  linarith [aL, aU, aG, aB, t1, t2, t3]

/-- Witness for C4 at the default configuration. -/
theorem smart_energy_conservation_witness :
    ∃ recs, simulateSmart cfgD solD loadD priceD = some recs ∧ recs.length = 24 ∧
      ∀ r ∈ recs,
        |r.load_demand - (r.solar_used + r.grid_usage + r.battery_discharge)| ≤ 1 / 50 :=
  smart_energy_conservation cfgD solD loadD priceD (by norm_num [cfgD])
    (by norm_num [cfgD]) (by norm_num [cfgD]) (by norm_num [cfgD])

/-! ### Claims C9 and C10: smart grid draw never exceeds baseline -/

/-- Shared per-hour comparison: the smart record's exact grid draw is
non-negative and at most the baseline deficit `max 0 (load - sol)`, so
both the recorded grid usage and the recorded hourly cost are bounded by
the corresponding baseline record's fields. -/
lemma smart_grid_le_baseline_idx (cfg : Config) (sol load price : ℕ → ℚ)
    (hpr : ∀ h : ℕ, 0 ≤ price h) {recs : List HourRecord}
    (hspec : ∀ (i k : ℕ), (List.range 24)[i]? = some k →
      ∃ r, recs[i]? = some r ∧ SmartRecSpec cfg (sol k) (load k) (price k) r)
    {i : ℕ} (hi : i < 24) :
    ∃ rs gs, recs[i]? = some rs ∧ rs.grid_usage = roundTo 2 gs ∧ 0 ≤ gs ∧
      gs ≤ max 0 (load i - sol i) ∧
      rs.grid_usage ≤ (baselineHour cfg i (sol i) (load i) (price i)).grid_usage ∧
      rs.hourly_cost ≤ (baselineHour cfg i (sol i) (load i) (price i)).hourly_cost := by
  obtain ⟨r, hr, s, g, bd, -, -, -, -, -, hgu, -, hcost, hg0, -, hgle⟩ :=
    hspec i i (by simp [List.getElem?_range, hi])
  refine ⟨r, g, hr, hgu, hg0, hgle, ?_, ?_⟩
  · rw [hgu]
    exact (roundTo_mono 2 hgle :
      roundTo 2 g ≤ roundTo 2 (max 0 (load i - sol i)))
  · rw [hcost]
    exact (roundTo_mono 3 (mul_le_mul_of_nonneg_right hgle (hpr i)) :
      roundTo 3 (g * price i) ≤ roundTo 3 (max 0 (load i - sol i) * price i))

/-- C10: for every valid configuration the smart strategy never draws
more from the grid than the baseline in any hour — exactly before
rounding and for the recorded fields — and consequently the summary's
smart grid total and smart cost total never exceed the baseline totals. -/
theorem smart_grid_never_exceeds_baseline (cfg : Config) (sol load price : ℕ → ℚ)
    (h1 : cfg.min_soc ≤ cfg.initial_soc) (h2 : cfg.initial_soc ≤ cfg.max_soc)
    (hcap : 0 < cfg.battery_capacity_kwh) (heff : 0 < cfg.battery_efficiency)
    (hpr : ∀ h : ℕ, 0 ≤ price h) :
    ∃ res, runComparison cfg sol load price = some res ∧
      (∀ h : ℕ, h < 24 → ∃ rs gs,
        res.smart_data[h]? = some rs ∧
        res.baseline_data[h]? = some (baselineHour cfg h (sol h) (load h) (price h)) ∧
        rs.grid_usage = roundTo 2 gs ∧ 0 ≤ gs ∧ gs ≤ max 0 (load h - sol h) ∧
        rs.grid_usage ≤ (baselineHour cfg h (sol h) (load h) (price h)).grid_usage ∧
        rs.hourly_cost ≤ (baselineHour cfg h (sol h) (load h) (price h)).hourly_cost) ∧
      res.summary.smart_grid_usage ≤ res.summary.baseline_grid_usage ∧
      res.summary.smart_total_cost ≤ res.summary.baseline_total_cost := by
  obtain ⟨recs, hloop, hlen, hspec⟩ :=
    smartLoop_spec cfg sol load price hcap heff (List.range 24) cfg.initial_soc h1 h2
  have hss : simulateSmart cfg sol load price = some recs := hloop
  have hlen24 : recs.length = 24 := by simpa using hlen
  have hrun : runComparison cfg sol load price = some
      { baseline_data := simulateBaseline cfg sol load price
        smart_data := recs
        summary :=
          { baseline_total_cost := roundTo 2 (totalCost (simulateBaseline cfg sol load price))
            smart_total_cost := roundTo 2 (totalCost recs)
            cost_saved :=
              roundTo 2 (totalCost (simulateBaseline cfg sol load price) - totalCost recs)
            cost_saved_percent := roundTo 1
              (if 0 < totalCost (simulateBaseline cfg sol load price) then
                (totalCost (simulateBaseline cfg sol load price) - totalCost recs)
                  / totalCost (simulateBaseline cfg sol load price) * 100
              else 0)
            baseline_grid_usage := roundTo 2 (totalGrid (simulateBaseline cfg sol load price))
            smart_grid_usage := roundTo 2 (totalGrid recs)
            grid_reduced :=
              roundTo 2 (totalGrid (simulateBaseline cfg sol load price) - totalGrid recs)
            grid_reduced_percent := roundTo 1
              (if 0 < totalGrid (simulateBaseline cfg sol load price) then
                (totalGrid (simulateBaseline cfg sol load price) - totalGrid recs)
                  / totalGrid (simulateBaseline cfg sol load price) * 100
              else 0)
            battery_capacity_kwh := cfg.battery_capacity_kwh
            peak_price := cfg.peak_price
            off_peak_price := cfg.off_peak_price } } := by
    simp only [runComparison, hss, Option.map_some']
  have hgridsum : totalGrid recs ≤ totalGrid (simulateBaseline cfg sol load price) := by
    unfold totalGrid
    apply sum_le_sum_idx
    · simp [hlen24, simulateBaseline]
    · intro i x y hx hy
      have hi24 : i < 24 := by
        have hlt : i < (recs.map HourRecord.grid_usage).length :=
          (List.getElem?_eq_some.mp hx).1
        simpa [hlen24] using hlt
      obtain ⟨rs, gs, hr, -, -, -, hle, -⟩ :=
        smart_grid_le_baseline_idx cfg sol load price hpr hspec hi24
      have hx' : (recs.map HourRecord.grid_usage)[i]? = some rs.grid_usage := by
        rw [List.getElem?_map, hr]; rfl
      have hy' : ((simulateBaseline cfg sol load price).map HourRecord.grid_usage)[i]? =
          some (baselineHour cfg i (sol i) (load i) (price i)).grid_usage := by
        rw [List.getElem?_map, simulateBaseline_getElem cfg sol load price hi24]; rfl
      rw [hx] at hx'
      rw [hy] at hy'
      rw [Option.some.inj hx', Option.some.inj hy']
      exact hle
  have hcostsum : totalCost recs ≤ totalCost (simulateBaseline cfg sol load price) := by
    unfold totalCost
    apply sum_le_sum_idx
    · simp [hlen24, simulateBaseline]
    · intro i x y hx hy
      have hi24 : i < 24 := by
        have hlt : i < (recs.map HourRecord.hourly_cost).length :=
          (List.getElem?_eq_some.mp hx).1
        simpa [hlen24] using hlt
      obtain ⟨rs, gs, hr, -, -, -, -, hcle⟩ :=
        smart_grid_le_baseline_idx cfg sol load price hpr hspec hi24
      have hx' : (recs.map HourRecord.hourly_cost)[i]? = some rs.hourly_cost := by
        rw [List.getElem?_map, hr]; rfl
      have hy' : ((simulateBaseline cfg sol load price).map HourRecord.hourly_cost)[i]? =
          some (baselineHour cfg i (sol i) (load i) (price i)).hourly_cost := by
        rw [List.getElem?_map, simulateBaseline_getElem cfg sol load price hi24]; rfl
      rw [hx] at hx'
      rw [hy] at hy'
      rw [Option.some.inj hx', Option.some.inj hy']
      exact hcle
  refine ⟨_, hrun, ?_, roundTo_mono 2 hgridsum, roundTo_mono 2 hcostsum⟩
  intro h hh
  obtain ⟨rs, gs, hr, hgu, hg0, hgle, hle, hcle⟩ :=
    smart_grid_le_baseline_idx cfg sol load price hpr hspec hh
  exact ⟨rs, gs, hr, simulateBaseline_getElem cfg sol load price hh, hgu, hg0, hgle, hle, hcle⟩

/-- Witness for C10 at the default configuration. -/
theorem smart_grid_never_exceeds_baseline_witness :
    ∃ res, runComparison cfgD solD loadD priceD = some res ∧
      (∀ h : ℕ, h < 24 → ∃ rs gs,
        res.smart_data[h]? = some rs ∧
        res.baseline_data[h]? = some (baselineHour cfgD h (solD h) (loadD h) (priceD h)) ∧
        rs.grid_usage = roundTo 2 gs ∧ 0 ≤ gs ∧ gs ≤ max 0 (loadD h - solD h) ∧
        rs.grid_usage ≤ (baselineHour cfgD h (solD h) (loadD h) (priceD h)).grid_usage ∧
        rs.hourly_cost ≤ (baselineHour cfgD h (solD h) (loadD h) (priceD h)).hourly_cost) ∧
      res.summary.smart_grid_usage ≤ res.summary.baseline_grid_usage ∧
      res.summary.smart_total_cost ≤ res.summary.baseline_total_cost :=
  smart_grid_never_exceeds_baseline cfgD solD loadD priceD (by norm_num [cfgD])
    (by norm_num [cfgD]) (by norm_num [cfgD]) (by norm_num [cfgD])
    (fun _ => by norm_num [priceD])

/-- C9: with `peak_hours = (18, 22)`, sunny weather, a fully charged
starting battery (`initial_soc = 1 = max_soc`) and the remaining fields
valid, the smart strategy's recorded grid usage at each hour 18..21 is at
most the baseline's. -/
theorem peak_shaving_full_battery (cfg : Config) (sol load price : ℕ → ℚ)
    (hpeak : cfg.peak_hours = (18, 22)) (hw : cfg.weather_mode = "sunny")
    (hinit : cfg.initial_soc = 1) (hmax : cfg.max_soc = 1) (hmin : cfg.min_soc ≤ 1)
    (hcap : 0 < cfg.battery_capacity_kwh) (heff : 0 < cfg.battery_efficiency)
    (hpr : ∀ h : ℕ, 0 ≤ price h) :
    ∃ recs, simulateSmart cfg sol load price = some recs ∧
      ∀ h : ℕ, 18 ≤ h → h < 22 →
        ∃ rs, recs[h]? = some rs ∧
          (simulateBaseline cfg sol load price)[h]? =
            some (baselineHour cfg h (sol h) (load h) (price h)) ∧
          rs.grid_usage ≤ (baselineHour cfg h (sol h) (load h) (price h)).grid_usage := by
  have h1 : cfg.min_soc ≤ cfg.initial_soc := by rw [hinit]; exact hmin
  have h2 : cfg.initial_soc ≤ cfg.max_soc := by rw [hinit, hmax]
  obtain ⟨recs, hloop, hlen, hspec⟩ :=
    smartLoop_spec cfg sol load price hcap heff (List.range 24) cfg.initial_soc h1 h2
  refine ⟨recs, hloop, ?_⟩
  intro h hl hu
  have hh : h < 24 := by omega
  obtain ⟨rs, gs, hr, -, -, -, hle, -⟩ :=
    smart_grid_le_baseline_idx cfg sol load price hpr hspec hh
  exact ⟨rs, hr, simulateBaseline_getElem cfg sol load price hh, hle⟩

/-- Witness for C9 at the default configuration with a full battery. -/
theorem peak_shaving_full_battery_witness :
    ∃ recs, simulateSmart cfgP solD loadD priceD = some recs ∧
      ∀ h : ℕ, 18 ≤ h → h < 22 →
        ∃ rs, recs[h]? = some rs ∧
          (simulateBaseline cfgP solD loadD priceD)[h]? =
            some (baselineHour cfgP h (solD h) (loadD h) (priceD h)) ∧
          rs.grid_usage ≤ (baselineHour cfgP h (solD h) (loadD h) (priceD h)).grid_usage :=
  peak_shaving_full_battery cfgP solD loadD priceD rfl rfl rfl rfl
    (by norm_num [cfgP]) (by norm_num [cfgP]) (by norm_num [cfgP])
    (fun _ => by norm_num [priceD])

/-! ### Claim C3 (code bug) -/

/-- C3: the dispatch code does not guard its divisions. With
`battery_capacity_kwh = 0` and any hour with positive solar excess, the
charge step reaches `energy_to_store / capacity` with a zero divisor
(`min` picks the Python-float `available_capacity = 0.0`, so CPython
raises `ZeroDivisionError`): the smart pass aborts instead of performing
the no-op the specification requires. -/
theorem smart_division_fault_on_zero_capacity :
    simulateSmart cfgZ solZ loadZ priceZ = none := by
  have hex : max (0 : ℚ) (solZ 0 - loadZ 0) = 3 := by
    simp only [solZ, loadZ]
    rw [max_eq_right] <;> norm_num
  have hcond : 0 < max (0 : ℚ) (solZ 0 - loadZ 0) ∧ cfgZ.initial_soc < cfgZ.max_soc := by
    rw [hex]
    exact ⟨by norm_num, by norm_num [cfgZ]⟩
  have hch : chargeStep cfgZ (max 0 (solZ 0 - loadZ 0)) cfgZ.initial_soc = none := by
    simp only [chargeStep, if_pos hcond, pydiv,
      if_pos (show cfgZ.battery_capacity_kwh = (0 : ℚ) from rfl)]
  have hstep : smartStep cfgZ 0 (solZ 0) (loadZ 0) (priceZ 0) cfgZ.initial_soc = none := by
    simp only [smartStep, hch]
  have hrange : List.range 24 =
      0 :: [1, 2, 3, 4, 5, 6, 7, 8, 9, 10, 11, 12, 13, 14, 15, 16, 17, 18, 19, 20, 21,
        22, 23] := by rfl
  show smartLoop cfgZ solZ loadZ priceZ (List.range 24) cfgZ.initial_soc = none
  rw [hrange]
  simp only [smartLoop, hstep]

/-! ### Claim C1: counterexample infrastructure -/

/-- The solar profile the run with `cfgX` generates. -/
def solX : ℕ → ℚ := (generateSolarProfile gU randU cfgX rng0).1

/-- The load profile the run with `cfgX` generates. -/
def loadX : ℕ → ℚ := (generateLoadProfile randU (generateSolarProfile gU randU cfgX rng0).2).1

/-- An hour with no solar excess and no peak discharge leaves the state of
charge untouched and reports it (rounded) in the record. -/
lemma smartStep_idle (cfg : Config) (hour : ℕ) (sol load price soc : ℚ)
    (hex : sol - load ≤ 0)
    (hnp : ¬((decide (cfg.peak_hours.1 ≤ hour ∧ hour < cfg.peak_hours.2)) = true ∧
      cfg.min_soc < soc)) :
    (smartStep cfg hour sol load price soc).map (fun p => (p.1.battery_soc, p.2)) =
      some (roundTo 1 (soc * 100), soc) := by
  have hch : chargeStep cfg (max 0 (sol - load)) soc = some (0, soc) := by
    have hm : max (0 : ℚ) (sol - load) = 0 := max_eq_left hex
    have hcond : ¬(0 < max (0 : ℚ) (sol - load) ∧ soc < cfg.max_soc) := by
      rw [hm]
      rintro ⟨h0, -⟩
      exact lt_irrefl 0 h0
    simp only [chargeStep, if_neg hcond]
  by_cases hrl : 0 < load - min sol load
  · have hdis : dischargeStep cfg
        (decide (cfg.peak_hours.1 ≤ hour ∧ hour < cfg.peak_hours.2))
        (load - min sol load) soc = some (0, soc, max 0 (load - min sol load)) := by
      simp only [dischargeStep, if_pos hrl, if_neg hnp]
    simp only [smartStep, hch, hdis, Option.map_some']
  · have hdis : dischargeStep cfg
        (decide (cfg.peak_hours.1 ≤ hour ∧ hour < cfg.peak_hours.2))
        (load - min sol load) soc = some (0, soc, 0) := by
      simp only [dischargeStep, if_neg hrl]
    simp only [smartStep, hch, hdis, Option.map_some']

/-- C1 counterexample: a full pipeline run with the valid configuration
`cfgX` (`min_soc = initial_soc = 0.1234`, capacity 10, efficiency 0.95).
At hour 0 there is no solar and no peak discharge, so the SoC is still
`0.1234`; the reported `battery_soc` is `round(12.34, 1) = 12.3`, strictly
below `min_soc × 100 = 12.34` — the reported percentage leaves
`[min_soc·100, max_soc·100]`. -/
theorem smart_reported_soc_below_min :
    ((microgridRun gU randU cfgX rng0).bind (fun res => res.smart_data[0]?)).map
        HourRecord.battery_soc = some (123 / 10) ∧
    (123 / 10 : ℚ) < cfgX.min_soc * 100 ∧
    cfgX.min_soc ≤ cfgX.initial_soc ∧ cfgX.initial_soc ≤ cfgX.max_soc ∧
    0 < cfgX.battery_capacity_kwh ∧ 0 < cfgX.battery_efficiency ∧
    cfgX.battery_efficiency ≤ 1 := by
  have hsol0 : solX 0 = 0 := by
    have hb : ¬(6 ≤ (0 : ℕ) ∧ (0 : ℕ) < 19) := by omega
    simp only [solX, generateSolarProfile, solarRaw, solarBase, if_neg hb, zero_mul,
      max_self, roundTo_zero]
  have hload0 : loadX 0 = 3 / 2 := by
    have hround : roundTo 2 ((1.5 : ℚ) * (1 + 1 / 20 * (1 / 2 - 1 / 2))) = 3 / 2 := by
      rw [show ((1.5 : ℚ) * (1 + 1 / 20 * (1 / 2 - 1 / 2))) = 3 / 2 by norm_num,
        roundTo_eq_of 2 (3 / 2 : ℚ) 150 (by norm_num) (by norm_num)]
      norm_num
    simp only [loadX, generateLoadProfile, npRandom24, npSeed, randU]
    rw [show loadBase 0 = (1.5 : ℚ) from rfl]
    exact hround
  have hex : solX 0 - loadX 0 ≤ 0 := by
    rw [hsol0, hload0]
    norm_num
  have hnp : ¬((decide (cfgX.peak_hours.1 ≤ 0 ∧ 0 < cfgX.peak_hours.2)) = true ∧
      cfgX.min_soc < cfgX.initial_soc) := by
    rintro ⟨hb, -⟩
    simp only [decide_eq_true_eq] at hb
    exact absurd hb.1 (by norm_num [cfgX])
  have hidle := smartStep_idle cfgX 0 (solX 0) (loadX 0) (generatePriceProfile cfgX 0)
    cfgX.initial_soc hex hnp
  obtain ⟨⟨rec, soc2⟩, hstepX, hmap⟩ := Option.map_eq_some'.mp hidle
  have hbs : rec.battery_soc = roundTo 1 (cfgX.initial_soc * 100) := (Prod.ext_iff.mp hmap).1
  obtain ⟨recs, hloop0, h0⟩ :=
    @smartLoop_head cfgX solX loadX (generatePriceProfile cfgX)
      (by norm_num [cfgX]) (by norm_num [cfgX]) 0
      [1, 2, 3, 4, 5, 6, 7, 8, 9, 10, 11, 12, 13, 14, 15, 16, 17, 18, 19, 20, 21, 22, 23]
      cfgX.initial_soc rec soc2 hstepX
  have hrange : List.range 24 =
      0 :: [1, 2, 3, 4, 5, 6, 7, 8, 9, 10, 11, 12, 13, 14, 15, 16, 17, 18, 19, 20, 21,
        22, 23] := by rfl
  have hsm : simulateSmart cfgX solX loadX (generatePriceProfile cfgX) = some recs := by
    show smartLoop cfgX solX loadX (generatePriceProfile cfgX) (List.range 24)
      cfgX.initial_soc = some recs
    rw [hrange]
    exact hloop0
  have hval : roundTo 1 (cfgX.initial_soc * 100) = 123 / 10 := by
    rw [roundTo_eq_of 1 (cfgX.initial_soc * 100) 123 (by norm_num [cfgX])
      (by norm_num [cfgX])]
    norm_num
  refine ⟨?_, by norm_num [cfgX], by norm_num [cfgX], by norm_num [cfgX],
    by norm_num [cfgX], by norm_num [cfgX], by norm_num [cfgX]⟩
  show ((runComparison cfgX solX loadX (generatePriceProfile cfgX)).bind
    (fun res => res.smart_data[0]?)).map HourRecord.battery_soc = some (123 / 10)
  simp only [runComparison, hsm, Option.map_some', Option.some_bind]
  rw [h0]
  simp only [Option.map_some']
  rw [hbs, hval]

end Microgrid
